import Mathlib

/-!
# Verification of the PaySim fraud-detection decision framework

Shallow embedding of the deterministic parts of the repository:
the five signal tools (`src/agent/tools.py`), the weighted scoring
framework and threshold table stated in `src/prompts.py`, the
orchestrator `run_fraud_analysis` (`src/agent/agent.py`), and the
dataset loader sampling boundary (`src/data/loader.py`).

Amounts, balances and scores are modelled as rationals; the one place
where IEEE NaN semantics matter (the sample standard deviation of a
single record in `compare_to_account_average`) is modelled with an
`Option` value, `none` standing for NaN.
-/

/-- The five PaySim transaction types (the `type` column). -/
inductive TxType
  | PAYMENT
  | CASH_IN
  | CASH_OUT
  | TRANSFER
  | DEBIT
deriving DecidableEq, Repr

/-- One row of the PaySim dataset, as loaded by `src/data/loader.py`. -/
structure TransactionRecord where
  step : Int
  type : TxType
  amount : ℚ
  nameOrig : String
  oldbalanceOrg : ℚ
  newbalanceOrig : ℚ
  nameDest : String
  oldbalanceDest : ℚ
  newbalanceDest : ℚ
  isFraud : Bool
  isFlaggedFraud : Bool
deriving DecidableEq, Repr

/-- Embeds `check_balance_anomaly` (src/agent/tools.py, tool 2): the
numeric signal score of the returned text.  Mirrors the if/elif chain:
safe types score 0, non-positive balance scores 0, then the ratio
bands `> 2.0` / `> 1.5` / `> 1.0` / otherwise. -/
def check_balance_anomaly (amount oldbalanceOrg : ℚ) (tx_type : TxType) : ℚ :=
  if tx_type = .PAYMENT ∨ tx_type = .CASH_IN ∨ tx_type = .DEBIT then 0
  else if oldbalanceOrg ≤ 0 then 0
  else
    let ratio := amount / oldbalanceOrg
    if ratio > 2 then 2
    else if ratio > 3/2 then 1
    else if ratio > 1 then 1/2
    else 0

/-- Insert a record into a step-descending list, keeping the order. -/
def insertStepDesc (r : TransactionRecord) :
    List TransactionRecord → List TransactionRecord
  | [] => [r]
  | x :: xs => if r.step ≤ x.step then x :: insertStepDesc r xs
               else r :: x :: xs

/-- Models `sort_values("step", ascending=False)`: sort by descending
time step (insertion sort; the claims depend only on the multiset of
the taken prefix, computed by this same function on both sides). -/
def sortStepDesc : List TransactionRecord → List TransactionRecord
  | [] => []
  | x :: xs => insertStepDesc x (sortStepDesc xs)

/-- Embeds the mask `df["nameOrig"] == origin_id` applied to the store:
the full history of the origin. -/
def originMatching (df : List TransactionRecord) (origin_id : String) :
    List TransactionRecord :=
  df.filter (fun r => r.nameOrig = origin_id)

/-- Embeds `df[mask].sort_values("step", ascending=False).head(n)`. -/
def recentRecords (df : List TransactionRecord) (origin_id : String)
    (n : Nat) : List TransactionRecord :=
  (sortStepDesc (originMatching df origin_id)).take n

/-- Embeds `fraud_count = recent["isFraud"].sum()`. -/
def recentFraudCount (df : List TransactionRecord) (origin_id : String)
    (n : Nat) : Nat :=
  ((recentRecords df origin_id n).filter (·.isFraud)).length

/-- Embeds `fraud_rate = (fraud_count / len(recent)) * 100 if len(recent)
> 0 else 0`, as an exact rational percentage. -/
def fraud_rate (df : List TransactionRecord) (origin_id : String)
    (n : Nat) : ℚ :=
  if 0 < (recentRecords df origin_id n).length then
    (recentFraudCount df origin_id n : ℚ) /
      (recentRecords df origin_id n).length * 100
  else 0

/-- Embeds `high_risk_txs = transfer_count + cashout_count`. -/
def high_risk_txs (df : List TransactionRecord) (origin_id : String)
    (n : Nat) : Nat :=
  ((recentRecords df origin_id n).filter (fun r => r.type = .TRANSFER)).length
    + ((recentRecords df origin_id n).filter
        (fun r => r.type = .CASH_OUT)).length

/-- The six risk assessments `get_origin_history` can print. -/
inductive OriginAssessment
  | noHistory   -- NO TRANSACTION HISTORY (+2)
  | risky       -- RISKY ACCOUNT: Past fraud detected (+2)
  | trusted     -- TRUSTED ACCOUNT: Frequent TRANSFER/CASH_OUT (-2)
  | limited     -- LIMITED HISTORY (+1)
  | caution     -- CAUTION: Some fraud in history (+1)
  | normal      -- NORMAL BEHAVIOR (-1)
deriving DecidableEq, Repr

/-- Embeds `get_origin_history` (src/agent/tools.py, tool 1): the
assessment branch taken and the numeric signal score.  The guard on the
empty mask models `if not mask.any()`; the remaining if/elif chain is
verbatim from the source. -/
def get_origin_history (df : List TransactionRecord) (origin_id : String)
    (n : Nat) : OriginAssessment × ℚ :=
  if originMatching df origin_id = [] then (.noHistory, 2)
  else if fraud_rate df origin_id n > 5 then (.risky, 2)
  else if high_risk_txs df origin_id n ≥ 5 then (.trusted, -2)
  else if (recentRecords df origin_id n).length < 3 then (.limited, 1)
  else if fraud_rate df origin_id n > 0 then (.caution, 1)
  else (.normal, -1)

/-- Embeds `is_merchant_account` (src/agent/tools.py, tool 3): the
signal score is −1 for a destination id starting with M, else 0. -/
def is_merchant_account (dest_id : String) : ℚ :=
  if dest_id.startsWith "M" then -1 else 0

/-- Embeds Signal D of the production prompt (src/prompts.py): a plain
threshold on the amount, computed without any tool call. -/
def amount_context_signal (amount : ℚ) : ℚ :=
  if amount > 300000 then 1/2 else 0

/-- Final decisions of the framework. -/
inductive Decision
  | LEGITIMATE
  | SUSPICIOUS
  | FRAUD
deriving DecidableEq, Repr

/-- Fraud probability (in percent) together with the decision. -/
structure ScoreResult where
  probability : ℚ
  decision : Decision
deriving DecidableEq, Repr

/-- Embeds STEP 4 of the production prompt: the ordered thresholds
mapping the total score to probability and decision. -/
def decideFromScore (total : ℚ) : ScoreResult :=
  if total ≤ -1 then ⟨5, .LEGITIMATE⟩
  else if total ≤ 0 then ⟨10, .LEGITIMATE⟩
  else if total ≤ 1 then ⟨20, .LEGITIMATE⟩
  else if total ≤ 2 then ⟨50, .SUSPICIOUS⟩
  else ⟨75, .FRAUD⟩

/-- The signal tools of src/agent/tools.py the framework can invoke. -/
inductive ToolName
  | getOriginHistory
  | checkBalanceAnomaly
  | isMerchantAccount
  | getAccountStatistics
  | compareToAccountAverage
deriving DecidableEq, Repr

/-- Embeds the scoring engine stated by `PRODUCTION_PROMPT`
(src/prompts.py, STEP 1 through STEP 4), the decision framework the
reasoning agent is instructed to execute: the type gate (STEP 1,
PAYMENT/CASH_IN/DEBIT return LEGITIMATE at 5% with no further
analysis), the four weighted signals (A via `get_origin_history` with
its default window of 10, B via `check_balance_anomaly`, C via
`is_merchant_account`, D computed inline), and the threshold table.
Returns the result together with the list of signal tools invoked. -/
def runScoringFramework (df : List TransactionRecord)
    (tx : TransactionRecord) : ScoreResult × List ToolName :=
  if tx.type = .PAYMENT ∨ tx.type = .CASH_IN ∨ tx.type = .DEBIT then
    (⟨5, .LEGITIMATE⟩, [])
  else
    let signalA := (get_origin_history df tx.nameOrig 10).2
    let signalB := check_balance_anomaly tx.amount tx.oldbalanceOrg tx.type
    let signalC := is_merchant_account tx.nameDest
    let signalD := amount_context_signal tx.amount
    (decideFromScore (signalA + signalB + signalC + signalD),
      [.getOriginHistory, .checkBalanceAnomaly, .isMerchantAccount])

/-- Models Python str.lower() on the ASCII mode strings used here. -/
def pyLower (s : String) : String := ⟨s.data.map Char.toLower⟩

/-- Models Python str.strip(): drop leading and trailing whitespace. -/
def pyStrip (s : String) : String :=
  ⟨((s.data.dropWhile Char.isWhitespace).reverse.dropWhile
      Char.isWhitespace).reverse⟩

/-- The accepted mode values (src/agent/agent.py, the membership list
checked after lower-casing). -/
def acceptedModes : List String :=
  ["production", "balanced", "conservative", "aggressive"]

/-- Models the python `"\n".join` of a list of lines. -/
def joinLines : List String → String
  | [] => ""
  | [s] => s
  | s :: rest => s ++ "\n" ++ joinLines rest

/-- Embeds the transaction snapshot of the error path of
`run_fraud_analysis`: one indented `k: v` line per field. -/
def txSummary (tx : List (String × String)) : String :=
  joinLines (tx.map (fun kv => "  " ++ kv.1 ++ ": " ++ kv.2))

/-- Embeds the three-step remediation hint printed by the exception
handler of `run_fraud_analysis`. -/
def remediationHint : String :=
  "Troubleshooting:\n"
    ++ "1. Check OPENAI_API_KEY in .env\n"
    ++ "2. Verify paysim.csv in data/ folder\n"
    ++ "3. Ensure all dependencies installed"

/-- Embeds the diagnostic string built by the exception handler of
`run_fraud_analysis`: error text, full transaction snapshot, traceback,
and the three-step remediation hint. -/
def agentErrorDiagnostic (tx : List (String × String)) (e tb : String) :
    String :=
  "❌ Agent Error: " ++ e ++ "\n\n" ++ "Transaction:\n" ++ txSummary tx
    ++ "\n\n" ++ "Traceback:\n" ++ tb ++ "\n\n" ++ remediationHint

/-- Outcome of invoking the reasoning agent (the LangGraph/LLM call of
`agent_executor.invoke`): either the final message content, or a raised
exception together with its traceback text. -/
inductive OracleOutcome
  | success (content : String)
  | failure (exn : String) (traceback : String)

/-- Embeds the control flow of `run_fraud_analysis`
(src/agent/agent.py): lower-case the mode, reject unknown modes by
raising ValueError (the `Except.error` branch, which the handler does
not catch because the raise precedes the try block), then invoke the
agent; an exception from the agent call is caught and converted to the
diagnostic string (with the empty-content fallback of the success
path).  The oracle argument stands for the external reasoning step and
is consulted only after validation succeeds. -/
def run_fraud_analysis (tx : List (String × String)) (mode : String)
    (oracle : OracleOutcome) : Except String String :=
  if pyLower mode ∈ acceptedModes then
    match oracle with
    | .success content =>
        .ok (if pyStrip content = "" then "No response from agent."
             else pyStrip content)
    | .failure e tb => .ok (agentErrorDiagnostic tx e tb)
  else
    .error ("Invalid mode: " ++ pyLower mode ++
      ". Use: production, balanced, conservative, or aggressive. " ++
      "(All modes currently use the production prompt)")

/-- One step of a linear congruential generator, driving the modelled
sampler. -/
def lcgStep (s : Nat) : Nat := (1103515245 * s + 12345) % 2147483648

/-- Models the library sampler `DataFrame.sample(frac=f, random_state)`:
an arbitrary but fixed deterministic pseudo-random subset selection
that depends only on the rows, the fraction and the seed (a row is
kept when the seeded stream falls below the fraction threshold). -/
def pandasSample (seed : Nat) (f : ℚ) :
    List TransactionRecord → List TransactionRecord
  | [] => []
  | r :: rs =>
      let s := lcgStep seed
      if (s : ℚ) / 2147483648 < f then r :: pandasSample s f rs
      else pandasSample s f rs

/-- Models the call `df.sample(frac=sample_frac, random_state=42)` made
by `_load_parquet` and `_load_csv`.  The entropy argument stands for
the interpreter-global RNG state pandas would fall back to if
`random_state` were omitted; the loader always passes the literal 42. -/
def sampleCall (entropy : Nat) (randomState : Option Nat) (f : ℚ)
    (rows : List TransactionRecord) : List TransactionRecord :=
  pandasSample (randomState.getD entropy) f rows

/-- Embeds the sampling path shared by `_load_parquet` and `_load_csv`
(src/data/loader.py, reached through `load_data`): read the dataset,
and when a sampling fraction is given, reject fractions outside (0, 1]
by raising ValueError, otherwise sub-sample with the fixed seed 42
(`reset_index(drop=True)` keeps the row order and is the identity on
the modelled row list). -/
def load_data (entropy : Nat) (dataset : List TransactionRecord) :
    Option ℚ → Except String (List TransactionRecord)
  | none => .ok dataset
  | some f =>
      if 0 < f ∧ f ≤ 1 then .ok (sampleCall entropy (some 42) f dataset)
      else .error "sample_frac must be between 0 and 1"

/-- Embeds `same_type["amount"].mean()`. -/
def amountMean (l : List ℚ) : ℚ := l.sum / l.length

/-- Models `same_type["amount"].std()` (pandas sample standard
deviation, ddof = 1): `none` stands for the NaN produced when fewer
than two samples exist; otherwise the sample variance is returned (the
tool only compares against `mean + 2*std`, which the embedding phrases
squared so as to stay within ℚ). -/
def amountSampleVar (l : List ℚ) : Option ℚ :=
  if 2 ≤ l.length then
    some ((l.map (fun x => (x - amountMean l)^2)).sum / (l.length - 1))
  else none

/-- Embeds the comparison `amount > avg + 2 * std` of the tool under IEEE
semantics: false whenever std is NaN (`none`); otherwise
`amount > avg + 2*sqrt(var)`, stated squared (equivalent because
sqrt(var) is nonnegative). -/
def exceedsUpperBound (amount : ℚ) (l : List ℚ) : Bool :=
  match amountSampleVar l with
  | none => false
  | some v =>
      decide (amountMean l < amount ∧ 4 * v < (amount - amountMean l)^2)

/-- The four assessments `compare_to_account_average` can print. -/
inductive CompareAssessment
  | newAccount    -- no baseline (+1)
  | firstOfType   -- never done this type before (+1)
  | unusual       -- above mean plus two standard deviations (+1)
  | typical       -- within normal range (−1)
deriving DecidableEq, Repr

/-- Embeds `compare_to_account_average` (src/agent/tools.py, tool 5):
the assessment branch taken and the numeric signal score. -/
def compare_to_account_average (df : List TransactionRecord)
    (origin_id : String) (amount : ℚ) (tx_type : TxType) :
    CompareAssessment × ℚ :=
  if originMatching df origin_id = [] then (.newAccount, 1)
  else
    let same_type := (originMatching df origin_id).filter
      (fun r => r.type = tx_type)
    if same_type.length = 0 then (.firstOfType, 1)
    else if exceedsUpperBound amount (same_type.map (·.amount)) then
      (.unusual, 1)
    else (.typical, -1)

/-- Shared band characterization of `check_balance_anomaly`, phrased by
the position of the ratio in the documented bands rather than by the
evaluation order of the if/elif chain. -/
theorem balance_bands (amount bal : ℚ) (ty : TxType) :
    (ty = .PAYMENT ∨ ty = .CASH_IN ∨ ty = .DEBIT →
      check_balance_anomaly amount bal ty = 0) ∧
    (¬(ty = .PAYMENT ∨ ty = .CASH_IN ∨ ty = .DEBIT) → bal ≤ 0 →
      check_balance_anomaly amount bal ty = 0) ∧
    (¬(ty = .PAYMENT ∨ ty = .CASH_IN ∨ ty = .DEBIT) → 0 < bal →
      (2 < amount / bal → check_balance_anomaly amount bal ty = 2) ∧
      (3/2 < amount / bal → amount / bal ≤ 2 →
        check_balance_anomaly amount bal ty = 1) ∧
      (1 < amount / bal → amount / bal ≤ 3/2 →
        check_balance_anomaly amount bal ty = 1/2) ∧
      (amount / bal ≤ 1 → check_balance_anomaly amount bal ty = 0)) := by
  unfold check_balance_anomaly
  refine ⟨fun h => by simp [h], fun h hb => ?_, fun h hb => ?_⟩
  · simp [if_neg h, if_pos hb]
  · rw [if_neg h, if_neg (not_le.mpr hb)]
    refine ⟨fun h2 => ?_, fun h15 h2 => ?_, fun h1 h15 => ?_, fun h1 => ?_⟩
    · simp [h2]
    · rw [if_neg (not_lt.mpr h2), if_pos h15]
    · rw [if_neg (not_lt.mpr (h15.trans (by norm_num))),
        if_neg (not_lt.mpr h15), if_pos h1]
    · rw [if_neg (not_lt.mpr (h1.trans (by norm_num))),
        if_neg (not_lt.mpr (h1.trans (by norm_num))), if_neg (not_lt.mpr h1)]

/-- C2: For every amount, origin balance-before, and transaction type,
`check_balance_anomaly` scores 0 for PAYMENT/CASH_IN/DEBIT; else 0 when
balance-before ≤ 0; else, with ratio = amount / balance-before, +2 when
ratio > 2, +1 when 1.5 < ratio ≤ 2 (so ratio exactly 2 scores +1),
+0.5 when 1 < ratio ≤ 1.5, and 0 when ratio ≤ 1. -/
theorem check_balance_anomaly_bands (amount bal : ℚ) (ty : TxType) :
    (ty = .PAYMENT ∨ ty = .CASH_IN ∨ ty = .DEBIT →
      check_balance_anomaly amount bal ty = 0) ∧
    (¬(ty = .PAYMENT ∨ ty = .CASH_IN ∨ ty = .DEBIT) → bal ≤ 0 →
      check_balance_anomaly amount bal ty = 0) ∧
    (¬(ty = .PAYMENT ∨ ty = .CASH_IN ∨ ty = .DEBIT) → 0 < bal →
      (2 < amount / bal → check_balance_anomaly amount bal ty = 2) ∧
      (3/2 < amount / bal → amount / bal ≤ 2 →
        check_balance_anomaly amount bal ty = 1) ∧
      (1 < amount / bal → amount / bal ≤ 3/2 →
        check_balance_anomaly amount bal ty = 1/2) ∧
      (amount / bal ≤ 1 → check_balance_anomaly amount bal ty = 0)) :=
  balance_bands amount bal ty

/-- Witness for `check_balance_anomaly_bands` at amount 4, balance 2,
type TRANSFER: ratio 2 falls in the moderate band and scores +1. -/
theorem check_balance_anomaly_bands_witness :
    check_balance_anomaly 4 2 .TRANSFER = 1 :=
  ((check_balance_anomaly_bands 4 2 .TRANSFER).2.2 (by simp) (by norm_num)).2.1
    (by norm_num) (by norm_num)

/-- C3 counterexample: at ratio exactly 1.5 (amount 3, balance 2,
type TRANSFER) `check_balance_anomaly` scores +0.5, not the +1 the
claim asserts: the moderate band `ratio > 1.5` is strict. -/
theorem ratio_one_point_five_scores_half :
    check_balance_anomaly 3 2 .TRANSFER = 1/2 ∧ (1/2 : ℚ) ≠ 1 := by
  refine ⟨?_, by norm_num⟩
  unfold check_balance_anomaly
  rw [if_neg (by simp), if_neg (by norm_num : ¬(2:ℚ) ≤ 0)]
  norm_num

/-- C3 amended: for every TRANSFER or CASH_OUT transaction with origin
balance-before > 0 and amount / balance-before exactly 1.5, the tool
returns +0.5 (the mild-anomaly branch): 1.5 lies in the `1 < ratio ≤ 1.5`
band because the lower boundary of the moderate band is exclusive. -/
theorem ratio_one_point_five_mild (amount bal : ℚ) (ty : TxType)
    (hty : ty = .TRANSFER ∨ ty = .CASH_OUT) (hbal : 0 < bal)
    (hq : amount / bal = 3/2) :
    check_balance_anomaly amount bal ty = 1/2 := by
  have hne : ¬(ty = .PAYMENT ∨ ty = .CASH_IN ∨ ty = .DEBIT) := by
    rcases hty with h | h <;> simp [h]
  exact ((balance_bands amount bal ty).2.2 hne hbal).2.2.1
    (by rw [hq]; norm_num) (by rw [hq])

/-- Witness for `ratio_one_point_five_mild`: amount 3, balance 2,
TRANSFER. -/
theorem ratio_one_point_five_mild_witness :
    check_balance_anomaly 3 2 .TRANSFER = 1/2 :=
  ratio_one_point_five_mild 3 2 .TRANSFER (Or.inl rfl) (by norm_num) (by norm_num)

lemma length_insertStepDesc (r : TransactionRecord)
    (l : List TransactionRecord) :
    (insertStepDesc r l).length = l.length + 1 := by
  induction l with
  | nil => rfl
  | cons x xs ih =>
    unfold insertStepDesc
    split
    · simp [ih]
    · simp

lemma length_sortStepDesc (l : List TransactionRecord) :
    (sortStepDesc l).length = l.length := by
  induction l with
  | nil => rfl
  | cons x xs ih => simp [sortStepDesc, length_insertStepDesc, ih]

lemma recentRecords_length (df : List TransactionRecord) (o : String)
    (n : Nat) :
    (recentRecords df o n).length = min n (originMatching df o).length := by
  simp [recentRecords, length_sortStepDesc]

lemma recentRecords_length_pos (df : List TransactionRecord) (o : String)
    (n : Nat) (hn : 1 ≤ n) (h : originMatching df o ≠ []) :
    0 < (recentRecords df o n).length := by
  rw [recentRecords_length]
  have : 0 < (originMatching df o).length := List.length_pos.mpr h
  omega

/-- Either-high-risk count splits into the TRANSFER and CASH_OUT counts
(each record has exactly one type). -/
lemma length_filter_highrisk (l : List TransactionRecord) :
    (l.filter (fun r => r.type = .TRANSFER ∨ r.type = .CASH_OUT)).length =
      (l.filter (fun r => r.type = .TRANSFER)).length +
      (l.filter (fun r => r.type = .CASH_OUT)).length := by
  simp only [Bool.decide_or]
  induction l with
  | nil => rfl
  | cons a l ih =>
    cases h : a.type <;> simp [List.filter_cons, h, ih] <;> omega

lemma rate_gt_five_iff (x : ℚ) : 5 < x * 100 ↔ 1/20 < x := by
  rw [show (1/20 : ℚ) = 5/100 by norm_num, div_lt_iff₀ (by norm_num)]

lemma rate_pos_iff (fc total : ℕ) (h : 0 < total) :
    0 < (fc : ℚ) / total * 100 ↔ 0 < fc := by
  have ht : (0 : ℚ) < total := by exact_mod_cast h
  constructor
  · intro hp
    by_contra hz
    have : fc = 0 := by omega
    rw [this] at hp
    norm_num at hp
  · intro hfc
    have : (0 : ℚ) < fc := by exact_mod_cast hfc
    positivity

/-- Bridge: the percentage test `fraud_rate > 5` of the code matches the
`fraudCount / total > 5%` whenever any record was fetched. -/
lemma fraud_rate_gt_five (df : List TransactionRecord) (o : String)
    (n : Nat) (h : 0 < (recentRecords df o n).length) :
    fraud_rate df o n > 5 ↔
      (recentFraudCount df o n : ℚ) / (recentRecords df o n).length >
        1/20 := by
  unfold fraud_rate
  rw [if_pos h]
  exact rate_gt_five_iff _

/-- Bridge: `fraud_rate > 0` holds exactly when a fetched record is a
fraud. -/
lemma fraud_rate_pos (df : List TransactionRecord) (o : String)
    (n : Nat) (h : 0 < (recentRecords df o n).length) :
    fraud_rate df o n > 0 ↔ 0 < recentFraudCount df o n := by
  unfold fraud_rate
  rw [if_pos h]
  exact rate_pos_iff _ _ h

/-- Bridge: the sum `transfer_count + cashout_count` of the code is the
count of TRANSFER-or-CASH_OUT records. -/
lemma high_risk_txs_eq (df : List TransactionRecord) (o : String)
    (n : Nat) :
    high_risk_txs df o n = ((recentRecords df o n).filter
      (fun r => r.type = .TRANSFER ∨ r.type = .CASH_OUT)).length := by
  unfold high_risk_txs
  exact (length_filter_highrisk _).symm

/-- C1: For every origin id and window size n ≥ 1, `get_origin_history`
fires exactly one of the six scoring branches, in the documented
priority order over the n most recent records fetched for that origin:
no history → noHistory/+2 (a normal result, never a failure);
fraud rate among the fetched records > 5% → risky/+2;
TRANSFER/CASH_OUT count ≥ 5 → trusted/−2; fewer than 3 fetched records
→ limited/+1; fraud rate > 0 → caution/+1; otherwise → normal/−1.
The six guard sets below are pairwise exclusive and exhaustive, so
exactly one branch applies to any input. -/
theorem get_origin_history_branches (df : List TransactionRecord)
    (origin : String) (n : Nat) (hn : 1 ≤ n) :
    (originMatching df origin = [] →
      get_origin_history df origin n = (.noHistory, 2)) ∧
    (originMatching df origin ≠ [] →
      ((recentFraudCount df origin n : ℚ) /
          (recentRecords df origin n).length > 1/20 →
        get_origin_history df origin n = (.risky, 2)) ∧
      (¬((recentFraudCount df origin n : ℚ) /
          (recentRecords df origin n).length > 1/20) →
        5 ≤ ((recentRecords df origin n).filter
          (fun r => r.type = .TRANSFER ∨ r.type = .CASH_OUT)).length →
        get_origin_history df origin n = (.trusted, -2)) ∧
      (¬((recentFraudCount df origin n : ℚ) /
          (recentRecords df origin n).length > 1/20) →
        ((recentRecords df origin n).filter
          (fun r => r.type = .TRANSFER ∨ r.type = .CASH_OUT)).length < 5 →
        (recentRecords df origin n).length < 3 →
        get_origin_history df origin n = (.limited, 1)) ∧
      (¬((recentFraudCount df origin n : ℚ) /
          (recentRecords df origin n).length > 1/20) →
        ((recentRecords df origin n).filter
          (fun r => r.type = .TRANSFER ∨ r.type = .CASH_OUT)).length < 5 →
        3 ≤ (recentRecords df origin n).length →
        0 < recentFraudCount df origin n →
        get_origin_history df origin n = (.caution, 1)) ∧
      (¬((recentFraudCount df origin n : ℚ) /
          (recentRecords df origin n).length > 1/20) →
        ((recentRecords df origin n).filter
          (fun r => r.type = .TRANSFER ∨ r.type = .CASH_OUT)).length < 5 →
        3 ≤ (recentRecords df origin n).length →
        recentFraudCount df origin n = 0 →
        get_origin_history df origin n = (.normal, -1))) := by
  constructor
  · intro h
    unfold get_origin_history
    rw [if_pos h]
  · intro hne
    have htot : 0 < (recentRecords df origin n).length :=
      recentRecords_length_pos df origin n hn hne
    have hf5 := fraud_rate_gt_five df origin n htot
    have hf0 := fraud_rate_pos df origin n htot
    have hhr := high_risk_txs_eq df origin n
    refine ⟨fun h => ?_, fun h1 h2 => ?_, fun h1 h2 h3 => ?_,
      fun h1 h2 h3 h4 => ?_, fun h1 h2 h3 h4 => ?_⟩ <;>
      unfold get_origin_history
    · rw [if_neg hne, if_pos (hf5.mpr h)]
    · rw [if_neg hne, if_neg (fun hc => h1 (hf5.mp hc)),
        if_pos (by rw [ge_iff_le, hhr]; exact h2)]
    · rw [if_neg hne, if_neg (fun hc => h1 (hf5.mp hc)),
        if_neg (by rw [ge_iff_le, hhr]; exact not_le.mpr h2), if_pos h3]
    · rw [if_neg hne, if_neg (fun hc => h1 (hf5.mp hc)),
        if_neg (by rw [ge_iff_le, hhr]; exact not_le.mpr h2),
        if_neg (not_lt.mpr h3), if_pos (hf0.mpr h4)]
    · have hnotpos : ¬ fraud_rate df origin n > 0 := fun hc => by
        have hcc := hf0.mp hc
        omega
      rw [if_neg hne, if_neg (fun hc => h1 (hf5.mp hc)),
        if_neg (by rw [ge_iff_le, hhr]; exact not_le.mpr h2),
        if_neg (not_lt.mpr h3), if_neg hnotpos]

/-- Witness for `get_origin_history_branches`: an empty store has no
history for any account, so the no-history branch fires with +2. -/
theorem get_origin_history_branches_witness :
    get_origin_history ([] : List TransactionRecord) "C1000000001" 10 =
      (.noHistory, 2) :=
  (get_origin_history_branches [] "C1000000001" 10 (by norm_num)).1 rfl

lemma data_append (a b : String) : (a ++ b).data = a.data ++ b.data := rfl

lemma infix_append_right {l₁ l₂ l₃ : List Char} (h : l₁ <:+: l₂) :
    l₁ <:+: l₂ ++ l₃ := by
  obtain ⟨s, t, rfl⟩ := h
  exact ⟨s, t ++ l₃, by simp⟩

lemma infix_append_left {l₁ l₂ l₃ : List Char} (h : l₁ <:+: l₂) :
    l₁ <:+: l₃ ++ l₂ := by
  obtain ⟨s, t, rfl⟩ := h
  exact ⟨l₃ ++ s, t, by simp⟩

lemma joinLines_cons (s b : String) (bs : List String) :
    joinLines (s :: b :: bs) = s ++ "\n" ++ joinLines (b :: bs) := rfl

lemma prefix_append_right {l₁ l₂ l₃ : List Char} (h : l₁ <+: l₂) :
    l₁ <+: l₂ ++ l₃ :=
  h.trans (List.prefix_append _ _)

/-- The character data of the diagnostic, as an explicit concatenation
of its nine leading segments and the remediation hint. -/
lemma agentErrorDiagnostic_data (tx : List (String × String))
    (e tb : String) :
    (agentErrorDiagnostic tx e tb).data =
      "\u274c Agent Error: ".data ++ e.data ++ "\n\n".data ++
        "Transaction:\n".data ++ (txSummary tx).data ++ "\n\n".data ++
        "Traceback:\n".data ++ tb.data ++ "\n\n".data ++
        remediationHint.data := by
  simp only [agentErrorDiagnostic, data_append]

/-- Each line of a member is contained in the joined lines. -/
lemma infix_joinLines (f : (String × String) → String)
    (l : List (String × String)) (x : String × String) (hx : x ∈ l) :
    (f x).data <:+: (joinLines (l.map f)).data := by
  induction l with
  | nil => cases hx
  | cons a rest ih =>
    rcases List.mem_cons.mp hx with h | h
    · subst h
      cases rest with
      | nil => exact List.infix_rfl
      | cons b bs =>
        rw [List.map_cons, List.map_cons, joinLines_cons]
        simp only [data_append]
        exact (prefix_append_right ((f x).data.prefix_append _)).isInfix
    · cases rest with
      | nil => cases h
      | cons b bs =>
        rw [List.map_cons, List.map_cons, joinLines_cons]
        simp only [data_append]
        exact infix_append_left (ih h)

/-- C5: Whatever the (valid) mode, when the reasoning-oracle invocation
raises, `run_fraud_analysis` still returns normally (the exception is
not propagated), and the returned string is the diagnostic: it starts
with the error marker rather than an analysis verdict, contains every
field name and value of the original transaction as its own snapshot
line, and carries the remediation hint. -/
theorem oracle_failure_diagnostic (tx : List (String × String))
    (mode : String) (e tb : String) (hm : pyLower mode ∈ acceptedModes) :
    run_fraud_analysis tx mode (.failure e tb) =
        .ok (agentErrorDiagnostic tx e tb) ∧
      (∀ kv ∈ tx, ("  " ++ kv.1 ++ ": " ++ kv.2).data <:+:
        (agentErrorDiagnostic tx e tb).data) ∧
      remediationHint.data <:+: (agentErrorDiagnostic tx e tb).data ∧
      "❌ Agent Error: ".data <+: (agentErrorDiagnostic tx e tb).data := by
  refine ⟨?_, ?_, ?_, ?_⟩
  · unfold run_fraud_analysis
    rw [if_pos hm]
  · intro kv hkv
    have h1 : ("  " ++ kv.1 ++ ": " ++ kv.2).data <:+: (txSummary tx).data :=
      infix_joinLines (fun kv => "  " ++ kv.1 ++ ": " ++ kv.2) tx kv hkv
    rw [agentErrorDiagnostic_data]
    exact infix_append_right (infix_append_right (infix_append_right
      (infix_append_right (infix_append_right (infix_append_left h1)))))
  · rw [agentErrorDiagnostic_data]
    exact infix_append_left List.infix_rfl
  · rw [agentErrorDiagnostic_data]
    exact prefix_append_right (prefix_append_right (prefix_append_right
      (prefix_append_right (prefix_append_right (prefix_append_right
        (prefix_append_right (prefix_append_right
          (List.prefix_append _ _))))))))

/-- Witness for `oracle_failure_diagnostic`: a one-field transaction in
production mode with a failing oracle. -/
theorem oracle_failure_diagnostic_witness :
    run_fraud_analysis [("amount", "100")] "production"
        (.failure "boom" "tb") =
        .ok (agentErrorDiagnostic [("amount", "100")] "boom" "tb") ∧
      (∀ kv ∈ [("amount", "100")],
        ("  " ++ kv.1 ++ ": " ++ kv.2).data <:+:
          (agentErrorDiagnostic [("amount", "100")] "boom" "tb").data) ∧
      remediationHint.data <:+:
        (agentErrorDiagnostic [("amount", "100")] "boom" "tb").data ∧
      "❌ Agent Error: ".data <+:
        (agentErrorDiagnostic [("amount", "100")] "boom" "tb").data :=
  oracle_failure_diagnostic [("amount", "100")] "production" "boom" "tb"
    (by decide)

/-- C4: For every transaction whose type is PAYMENT, CASH_IN or DEBIT,
the gate of the scoring framework short-circuits: the result is LEGITIMATE
with fraud probability 5%, and the list of signal tools invoked is
empty. -/
theorem gate_short_circuit (df : List TransactionRecord)
    (tx : TransactionRecord)
    (h : tx.type = .PAYMENT ∨ tx.type = .CASH_IN ∨ tx.type = .DEBIT) :
    runScoringFramework df tx =
      (⟨5, .LEGITIMATE⟩, ([] : List ToolName)) := by
  unfold runScoringFramework
  rw [if_pos h]

/-- Witness for `gate_short_circuit`: a PAYMENT transaction. -/
theorem gate_short_circuit_witness :
    runScoringFramework []
      ⟨1, .PAYMENT, 100, "C1", 500, 400, "M1", 0, 100, false, false⟩ =
      (⟨5, .LEGITIMATE⟩, ([] : List ToolName)) :=
  gate_short_circuit [] _ (Or.inl rfl)

/-- C6 counterexample: the mode string "PRODUCTION" is not one of the
four accepted values, yet `run_fraud_analysis` raises no configuration
error for it (the mode is lower-cased before the membership check), so
the claimed iff over exact mode strings fails. -/
theorem mode_exact_match_counterexample :
    "PRODUCTION" ∉ acceptedModes ∧
      run_fraud_analysis [] "PRODUCTION" (.success "done") = .ok "done" := by
  constructor
  · decide
  · rfl

/-- C6 amended: `run_fraud_analysis` raises a configuration error (the
uncaught ValueError branch) if and only if the lower-cased mode is not
one of production, balanced, conservative, aggressive; and when it is
invalid, the result does not depend on the reasoning oracle at all (the
raise happens before any tool or agent invocation and before the
exception handler is installed). -/
theorem invalid_mode_rejected (tx : List (String × String))
    (mode : String) (o o2 : OracleOutcome) :
    ((∃ msg, run_fraud_analysis tx mode o = .error msg) ↔
      pyLower mode ∉ acceptedModes) ∧
    (pyLower mode ∉ acceptedModes →
      run_fraud_analysis tx mode o = run_fraud_analysis tx mode o2) := by
  constructor
  · constructor
    · rintro ⟨msg, hmsg⟩ hmem
      unfold run_fraud_analysis at hmsg
      rw [if_pos hmem] at hmsg
      cases o with
      | success c => exact Except.noConfusion hmsg
      | failure e tb => exact Except.noConfusion hmsg
    · intro hmem
      unfold run_fraud_analysis
      rw [if_neg hmem]
      exact ⟨_, rfl⟩
  · intro hmem
    unfold run_fraud_analysis
    rw [if_neg hmem, if_neg hmem]

/-- C9: mode validation is case-insensitive: any mode string whose
lower-casing lands in the accepted list (in particular every
letter-case variant of the four accepted values) raises no
configuration error, and the call proceeds to a normal result. -/
theorem mode_case_insensitive (tx : List (String × String))
    (mode : String) (o : OracleOutcome)
    (h : pyLower mode ∈ acceptedModes) :
    ∃ out, run_fraud_analysis tx mode o = .ok out := by
  unfold run_fraud_analysis
  rw [if_pos h]
  cases o with
  | success c => exact ⟨_, rfl⟩
  | failure e tb => exact ⟨_, rfl⟩

/-- Witness for `mode_case_insensitive`: the variants "PRODUCTION" and
"Balanced" are accepted. -/
theorem mode_case_insensitive_witness :
    (pyLower "PRODUCTION" ∈ acceptedModes ∧
      ∃ out, run_fraud_analysis [] "PRODUCTION" (.success "ok") = .ok out) ∧
    (pyLower "Balanced" ∈ acceptedModes ∧
      ∃ out, run_fraud_analysis [] "Balanced" (.success "ok") = .ok out) :=
  ⟨⟨by decide, mode_case_insensitive [] "PRODUCTION" (.success "ok")
      (by decide)⟩,
    ⟨by decide, mode_case_insensitive [] "Balanced" (.success "ok")
      (by decide)⟩⟩

/-- C7: the loader rejects any sampling fraction outside (0, 1] with an
error (never a clamped or partial result), and raises no sampling-range
error for any fraction inside (0, 1]. -/
theorem sample_frac_validation (entropy : Nat)
    (dataset : List TransactionRecord) (f : ℚ) :
    (f ≤ 0 ∨ 1 < f →
      load_data entropy dataset (some f) =
        .error "sample_frac must be between 0 and 1") ∧
    (0 < f → f ≤ 1 →
      ∃ rows, load_data entropy dataset (some f) = .ok rows) := by
  constructor
  · intro h
    simp only [load_data]
    rw [if_neg]
    rcases h with h | h
    · exact fun hc => absurd hc.1 (not_lt.mpr h)
    · exact fun hc => absurd hc.2 (not_le.mpr h)
  · intro h1 h2
    simp only [load_data]
    rw [if_pos ⟨h1, h2⟩]
    exact ⟨_, rfl⟩

/-- Witness for `sample_frac_validation`: fraction 2 is rejected,
fraction 1/2 is accepted. -/
theorem sample_frac_validation_witness :
    (load_data 0 [] (some 2) =
      .error "sample_frac must be between 0 and 1") ∧
    (∃ rows, load_data 0 [] (some (1/2)) = .ok rows) :=
  ⟨(sample_frac_validation 0 [] 2).1 (Or.inr (by norm_num)),
    (sample_frac_validation 0 [] (1/2)).2 (by norm_num) (by norm_num)⟩

/-- C8: sampling determinism: for any fraction in (0, 1] and a fixed
underlying dataset, two loads return identical record lists (same rows,
same order), whatever the ambient RNG state of either run, because the
sampler is always seeded with the fixed literal 42. -/
theorem load_data_deterministic (entropy1 entropy2 : Nat)
    (dataset : List TransactionRecord) (f : ℚ)
    (h1 : 0 < f) (h2 : f ≤ 1) :
    load_data entropy1 dataset (some f) =
      load_data entropy2 dataset (some f) := by
  simp only [load_data]
  rw [if_pos ⟨h1, h2⟩, if_pos ⟨h1, h2⟩]
  rfl

/-- Witness for `load_data_deterministic`: two loads under different
ambient RNG states at fraction 1/2. -/
theorem load_data_deterministic_witness :
    load_data 7 [] (some (1/2)) = load_data 99 [] (some (1/2)) :=
  load_data_deterministic 7 99 [] (1/2) (by norm_num) (by norm_num)

/-- C10: for an origin with exactly one prior record of the given type,
`compare_to_account_average` returns the typical-amount result (score
−1) whatever the amount: the sample standard deviation of one record is
NaN, the upper bound mean + 2·std is NaN, and `amount > NaN` is false
under IEEE semantics. -/
theorem single_record_never_unusual (df : List TransactionRecord)
    (origin : String) (amount : ℚ) (ty : TxType)
    (h : ((originMatching df origin).filter
      (fun r => r.type = ty)).length = 1) :
    compare_to_account_average df origin amount ty = (.typical, -1) := by
  have hne : originMatching df origin ≠ [] := by
    intro hc
    rw [hc] at h
    simp at h
  have hvar : amountSampleVar (((originMatching df origin).filter
      (fun r => r.type = ty)).map (·.amount)) = none := by
    unfold amountSampleVar
    rw [if_neg]
    rw [List.length_map, h]
    omega
  have hex : exceedsUpperBound amount (((originMatching df origin).filter
      (fun r => r.type = ty)).map (·.amount)) = false := by
    unfold exceedsUpperBound
    rw [hvar]
  unfold compare_to_account_average
  rw [if_neg hne, if_neg (by rw [h]; omega), if_neg (by rw [hex]; simp)]

/-- Witness for `single_record_never_unusual`: a store holding a single
TRANSFER of 10 for C1; an amount of 1000000 is still declared typical. -/
theorem single_record_never_unusual_witness :
    compare_to_account_average
      [⟨1, .TRANSFER, 10, "C1", 100, 90, "C2", 0, 10, false, false⟩]
      "C1" 1000000 .TRANSFER = (.typical, -1) :=
  single_record_never_unusual _ "C1" 1000000 .TRANSFER (by rfl)
